import Mathlib

/-!
Shallow embedding of the `mcp-fathom-server-remote` repository (TypeScript).

The embedded code:
* `src/src/fathom-client.ts` (the later, operative variant of `FathomClient`):
  `searchMeetings` (lines 151-224), `getMeetingTranscript` (lines 226-283),
  `formatParams` (lines 322-352), `handleError` (lines 354-368).
* `src/unnamed/part_001` (HTTP server): the session/transport routing of
  `app.all('/mcp')` (lines 354-430), `app.get('/sse')` / `app.post('/messages')`
  (lines 435-467), and the `CallToolRequestSchema` handler (lines 137-328,
  identical to `src/src/index.ts` lines 131-322).

JavaScript strings are modelled as Lean `String`; `undefined`-able values as
`Option`; thrown errors as `Except`; the remote HTTP service as explicit
outcome values passed in as parameters.  Promises resolved by `Promise.all`
are modelled by a sequential fold returning the first rejection, which agrees
with the source on everything the theorems state (which fetches are issued,
whether the batch as a whole resolves or rejects, and the per-meeting
transcript updates on success).
-/

/-- Decidable equality for `Except`, so concrete runs of the fallible
operations can be checked by `decide`. -/
instance {ε α : Type} [DecidableEq ε] [DecidableEq α] : DecidableEq (Except ε α)
  | Except.ok a, Except.ok b =>
    match decEq a b with
    | isTrue h => isTrue (congrArg Except.ok h)
    | isFalse h => isFalse (fun hc => h (by cases hc; rfl))
  | Except.ok _, Except.error _ => isFalse (fun hc => Except.noConfusion hc)
  | Except.error _, Except.ok _ => isFalse (fun hc => Except.noConfusion hc)
  | Except.error e, Except.error f =>
    match decEq e f with
    | isTrue h => isTrue (congrArg Except.error h)
    | isFalse h => isFalse (fun hc => h (by cases hc; rfl))

/-- Model of JavaScript `String.prototype.toLowerCase`: per-character
lowercasing. -/
def jsToLower (s : String) : String := String.mk (s.data.map Char.toLower)

/-- Model of JavaScript `String.prototype.includes`: `needle` occurs as a
contiguous substring of `hay`. -/
def jsIncludes (hay needle : String) : Bool :=
  (List.range (hay.data.length + 1)).any (fun i => needle.data.isPrefixOf (hay.data.drop i))

/-- Model of the JavaScript idiom `x || d` on an optional string, as used for
`segment.speaker?.display_name || 'Unknown Speaker'` etc.: `undefined`, `null`
and the empty string are all falsy and select the default. -/
def jsOrDefault (x : Option String) (d : String) : String :=
  match x with
  | some s => if s = "" then d else s
  | none => d

/-- `FathomMeeting` from `src/src/types.ts`, restricted to the fields the
embedded operations read.  `title` and `meeting_title` are declared `string`
in the interface but every use site guards them with `?.`, so they are
modelled as optional, like the fields the interface itself marks optional. -/
structure FathomMeeting where
  title : Option String
  meeting_title : Option String
  url : String
  share_url : String
  created_at : String
  scheduled_start_time : Option String
  calendar_invitees : List String
  recorded_by : String
  transcript : Option String
  default_summary : Option String
  action_items : Option (List String)
  recording_id : Option String
  deriving Repr, DecidableEq

/-- `FathomListMeetingsParams` from `src/src/types.ts`.  `none` models a field
that is absent / `undefined` on the JavaScript object. -/
structure FathomListMeetingsParams where
  calendar_invitees : Option (List String)
  calendar_invitees_domains : Option (List String)
  created_after : Option String
  created_before : Option String
  cursor : Option String
  include_crm_matches : Option Bool
  include_transcript : Option Bool
  meeting_type : Option String
  recorded_by : Option (List String)
  teams : Option (List String)
  deriving Repr, DecidableEq

/-- A value stored in the `Record<string, any>` that `formatParams` builds:
either a scalar (string or boolean) or a string array (serialized by axios as
a repeated-key parameter when its key ends in `[]`). -/
inductive JsVal where
  | str (s : String)
  | boolean (b : Bool)
  | strList (l : List String)
  deriving Repr, DecidableEq

/-- One optional entry of the params object. -/
def optEntry (k : String) (v : Option JsVal) : List (String × JsVal) :=
  match v with
  | some x => [(k, x)]
  | none => []

/-- The fields of a `FathomListMeetingsParams` object in declaration order, as
iterated by `Object.entries(params)`; absent (`undefined`) fields produce no
entry, matching the `value !== undefined` guard. -/
def paramEntries (p : FathomListMeetingsParams) : List (String × JsVal) :=
  optEntry "calendar_invitees" (p.calendar_invitees.map .strList) ++
  optEntry "calendar_invitees_domains" (p.calendar_invitees_domains.map .strList) ++
  optEntry "created_after" (p.created_after.map .str) ++
  optEntry "created_before" (p.created_before.map .str) ++
  optEntry "cursor" (p.cursor.map .str) ++
  optEntry "include_crm_matches" (p.include_crm_matches.map .boolean) ++
  optEntry "include_transcript" (p.include_transcript.map .boolean) ++
  optEntry "meeting_type" (p.meeting_type.map .str) ++
  optEntry "recorded_by" (p.recorded_by.map .strList) ++
  optEntry "teams" (p.teams.map .strList)

/-- One `if (params.x?.length) formatted['x[]'] = params.x` statement of
`formatParams`: the list-valued filter is stored under the `[]`-suffixed key
when it is present and non-empty (`params.x?.length` is truthy). -/
def arrayEntry (k : String) (f : Option (List String)) : List (String × JsVal) :=
  match f with
  | some l => if l.length ≠ 0 then [(k, JsVal.strList l)] else []
  | none => []

/-- The array-parameter block of `FathomClient.formatParams`
(`src/src/fathom-client.ts` lines 327-338): the same guarded assignment,
once per list-valued filter. -/
def arrayParamBlock (p : FathomListMeetingsParams) : List (String × JsVal) :=
  arrayEntry "calendar_invitees[]" p.calendar_invitees ++
  arrayEntry "calendar_invitees_domains[]" p.calendar_invitees_domains ++
  arrayEntry "recorded_by[]" p.recorded_by ++
  arrayEntry "teams[]" p.teams

/-- The key filter of the `Object.entries(params).forEach` loop in the later
`formatParams` (`src/src/fathom-client.ts` lines 340-349): keys containing
`calendar_invitees`, `recorded_by` or `teams` were already handled as array
parameters, and `include_transcript` is deliberately not sent to the API. -/
def scalarKeyKept (k : String) : Bool :=
  !(jsIncludes k "calendar_invitees") &&
  !(jsIncludes k "recorded_by") &&
  !(jsIncludes k "teams") &&
  k != "include_transcript"

/-- `FathomClient.formatParams`, later variant (`src/src/fathom-client.ts`
lines 322-352): the parameters actually sent upstream by `listMeetings`. -/
def formatParams (params : Option FathomListMeetingsParams) : List (String × JsVal) :=
  match params with
  | none => []
  | some p => arrayParamBlock p ++ (paramEntries p).filter (fun kv => scalarKeyKept kv.1)

/-- What a `FathomClient` method caught in its `try`/`catch`: either an
`AxiosError` (with the optional HTTP status of `error.response?.status` and
the optional `error.response?.data?.message` body field), some other thrown
`Error` carrying a message, or a thrown non-`Error` value. -/
inductive CaughtFailure where
  | axios (status : Option Nat) (bodyMessage : Option String)
  | plainError (message : String)
  | nonError
  deriving Repr, DecidableEq

/-- The error value `FathomClient.handleError` produces. -/
inductive NormalizedError where
  | rateLimit
  | invalidCredential
  | upstreamMessage (message : String)
  | passthroughAxios (status : Option Nat)
  | passthroughError (message : String)
  | unknownGeneric
  deriving Repr, DecidableEq

/-- `FathomClient.handleError` (`src/src/fathom-client.ts` lines 354-368; the
earlier variant at lines 91-105 is textually identical).  `rateLimit` is the
`Rate limit exceeded` error, `invalidCredential` the `Invalid API key` error,
`upstreamMessage m` the `Fathom API error: m` error, `passthroughAxios` /
`passthroughError` the `error instanceof Error ? error : ...` branch returning
the caught error unchanged, and `unknownGeneric` the
`new Error('Unknown error occurred')` fallback for non-`Error` throwables. -/
def handleError (e : CaughtFailure) : NormalizedError :=
  match e with
  | .axios status bodyMessage =>
    if status = some 429 then .rateLimit
    else if status = some 401 then .invalidCredential
    else
      match bodyMessage with
      | some m => .upstreamMessage m
      | none => .passthroughAxios status
  | .plainError m => .passthroughError m
  | .nonError => .unknownGeneric

/-- One element of the remote transcript array:
`{ speaker: { display_name }, text, timestamp }`, each part optional at
runtime (the code guards with `?.` and `||`). -/
structure Segment where
  speaker : Option String
  timestamp : Option String
  text : Option String
  deriving Repr, DecidableEq

/-- The shape of a 2xx response body for
`GET /recordings/:id/transcript`, as discriminated by `getMeetingTranscript`:
a `transcript` array of segments, a bare string body, a string-valued
`transcript` field, or anything else. -/
inductive TranscriptBody where
  | segArray (segs : List Segment)
  | strBody (s : String)
  | strField (s : String)
  | unexpected
  deriving Repr, DecidableEq

/-- The outcome of the HTTP call issued by `getMeetingTranscript`: a 2xx
response with a body, or a thrown failure (for an `AxiosError`,
`error.response?.status`; otherwise a non-axios error). -/
inductive FetchOutcome where
  | success (body : TranscriptBody)
  | httpFailure (status : Option Nat) (isAxios : Bool)
  deriving Repr, DecidableEq

/-- The only errors `getMeetingTranscript` re-throws: the authentication
error built for HTTP 401/403 and the rate-limit error built for HTTP 429. -/
inductive CriticalError where
  | authError (recordingId : String) (status : Nat)
  | rateLimitError (recordingId : String)
  deriving Repr, DecidableEq

/-- One line of the flattened transcript
(`src/src/fathom-client.ts` lines 234-239):
`[${segment.timestamp || ''}] ${segment.speaker?.display_name || 'Unknown Speaker'}: ${segment.text || ''}`. -/
def renderSegment (seg : Segment) : String :=
  "[" ++ jsOrDefault seg.timestamp "" ++ "] " ++
  jsOrDefault seg.speaker "Unknown Speaker" ++ ": " ++
  jsOrDefault seg.text ""

/-- `FathomClient.getMeetingTranscript` (`src/src/fathom-client.ts` lines
226-283) as a function of the recording id and the outcome of its one HTTP
call.  A segment array is flattened to one rendered line per segment joined
with newlines; string-shaped bodies are returned as-is; an unexpected body
shape throws a plain `Error` inside the `try`, which the `catch` (not being
an `AxiosError`) converts to `''`.  In the `catch`: axios 404 resolves to
`''`, axios 401/403 re-throws the authentication error, axios 429 re-throws
the rate-limit error, and every other failure resolves to `''`. -/
def getMeetingTranscript (recordingId : String) (o : FetchOutcome) :
    Except CriticalError String :=
  match o with
  | .success (.segArray segs) =>
      .ok (String.intercalate "\n" (segs.map renderSegment))
  | .success (.strBody s) => .ok s
  | .success (.strField s) => .ok s
  | .success .unexpected => .ok ""
  | .httpFailure status isAxios =>
    if isAxios then
      match status with
      | some st =>
        if st = 404 then .ok ""
        else if st = 401 ∨ st = 403 then .error (.authError recordingId st)
        else if st = 429 then .error (.rateLimitError recordingId)
        else .ok ""
      | none => .ok ""
    else .ok ""

/-- Truthiness of `meeting.recording_id` (`undefined` and `''` are falsy). -/
def hasRecIdB (m : FathomMeeting) : Bool :=
  match m.recording_id with
  | some rid => rid != ""
  | none => false

/-- `titleMatch` of the search filter (`src/src/fathom-client.ts` lines
201-202 / 215-216): the lowercased primary or alternate title contains the
lowercased search term. -/
def titleMatchB (searchLower : String) (m : FathomMeeting) : Bool :=
  (match m.title with
   | some t => jsIncludes (jsToLower t) searchLower
   | none => false) ||
  (match m.meeting_title with
   | some t => jsIncludes (jsToLower t) searchLower
   | none => false)

/-- `summaryMatch` of the search filter. -/
def summaryMatchB (searchLower : String) (m : FathomMeeting) : Bool :=
  match m.default_summary with
  | some s => jsIncludes (jsToLower s) searchLower
  | none => false

/-- `actionItemsMatch` of the search filter: some action-item string contains
the lowercased term (the `typeof item === 'string'` guard always holds in the
typed model). -/
def actionItemsMatchB (searchLower : String) (m : FathomMeeting) : Bool :=
  match m.action_items with
  | some items => items.any (fun i => jsIncludes (jsToLower i) searchLower)
  | none => false

/-- `transcriptMatch` of the transcript-mode search filter. -/
def transcriptMatchB (searchLower : String) (m : FathomMeeting) : Bool :=
  match m.transcript with
  | some t => jsIncludes (jsToLower t) searchLower
  | none => false

/-- The metadata-only predicate of `searchMeetings`' second `return`
(`src/src/fathom-client.ts` lines 214-223). -/
def metadataMatch (searchLower : String) (m : FathomMeeting) : Bool :=
  titleMatchB searchLower m || summaryMatchB searchLower m ||
  actionItemsMatchB searchLower m

/-- The transcript-mode predicate of `searchMeetings`' first `return`
(`src/src/fathom-client.ts` lines 200-210): metadata OR transcript. -/
def fullMatch (searchLower : String) (m : FathomMeeting) : Bool :=
  titleMatchB searchLower m || summaryMatchB searchLower m ||
  actionItemsMatchB searchLower m || transcriptMatchB searchLower m

/-- The per-meeting body of the `transcriptPromises` map
(`src/src/fathom-client.ts` lines 174-193): for a meeting with a truthy
`recording_id`, fetch the transcript; a truthy (non-empty) result is written
to `meeting.transcript`, an empty result leaves the meeting unchanged, and a
re-thrown critical error rejects.  Meetings without a truthy `recording_id`
are exactly the ones `meetingsWithRecordingId` filters out, so they are left
unchanged and no fetch is issued for them. -/
def updateTranscript (env : String → FetchOutcome) (m : FathomMeeting) :
    Except CriticalError FathomMeeting :=
  match m.recording_id with
  | some rid =>
    if rid != "" then
      match getMeetingTranscript rid (env rid) with
      | .ok t => .ok (if t != "" then { m with transcript := some t } else m)
      | .error e => .error e
    else .ok m
  | none => .ok m

/-- `await Promise.all(transcriptPromises)` over the capped meeting list: all
updates succeed and the mutated meetings are visible in listing order, or the
whole batch rejects with a critical error raised by one of the fetches. -/
def updateAll (env : String → FetchOutcome) :
    List FathomMeeting → Except CriticalError (List FathomMeeting)
  | [] => .ok []
  | m :: rest =>
    match updateTranscript env m with
    | .error e => .error e
    | .ok m' =>
      match updateAll env rest with
      | .error e => .error e
      | .ok rest' => .ok (m' :: rest')

/-- `FathomClient.searchMeetings`, later variant (`src/src/fathom-client.ts`
lines 151-224), as a function of the search term, the `includeTranscript`
flag, the items of the one 30-day `listMeetings` response, and the remote
transcript service `env`.  `maxTranscripts = 10`: the transcript phase runs
over `response.items.slice(0, 10)` and the final filter is applied to that
same capped, transcript-updated list; without transcript search the full
listing is filtered on metadata only and `env` is never consulted. -/
def searchMeetings (searchTerm : String) (includeTranscript : Bool)
    (items : List FathomMeeting) (env : String → FetchOutcome) :
    Except CriticalError (List FathomMeeting) :=
  let searchLower := jsToLower searchTerm
  match includeTranscript with
  | true =>
    match updateAll env (items.take 10) with
    | .error e => .error e
    | .ok updated => .ok (updated.filter (fullMatch searchLower))
  | false => .ok (items.filter (metadataMatch searchLower))

/-- The recording ids for which `searchMeetings` issues a
`getMeetingTranscript` call: in transcript mode, one call per element of
`meetingsWithRecordingId = response.items.slice(0, 10).filter(m => m.recording_id)`
(`src/src/fathom-client.ts` lines 162-195); in metadata mode, none. -/
def transcriptFetches (includeTranscript : Bool) (items : List FathomMeeting) :
    List String :=
  match includeTranscript with
  | true => (((items.take 10).filter hasRecIdB).filterMap (fun m => m.recording_id))
  | false => []

/-- An HTTP outcome on which `getMeetingTranscript` re-throws: an axios
failure with status 401, 403 or 429. -/
def isCriticalOutcome : FetchOutcome → Bool
  | .httpFailure (some st) true => st == 401 || st == 403 || st == 429
  | _ => false

/-- The transcript fetch for `m` (if any) hits a critical condition. -/
def fetchCritical (env : String → FetchOutcome) (m : FathomMeeting) : Bool :=
  match m.recording_id with
  | some rid => rid != "" && isCriticalOutcome (env rid)
  | none => false

/-- Protocol kind of a registered transport: `StreamableHTTPServerTransport`
or `SSEServerTransport` (`src/unnamed/part_001` line 344). -/
inductive TransportKind where
  | streamable
  | sse
  deriving Repr, DecidableEq

/-- Lookup in the `transports` record by session id. -/
def lookupTransport (ts : List (String × TransportKind)) (sid : String) :
    Option TransportKind :=
  (ts.find? (fun p => p.1 == sid)).map (fun p => p.2)

/-- Routing outcome of `app.all('/mcp')`. -/
inductive McpOutcome where
  | reuse (sid : String)
  | newSession
  | mismatch
  | badRequest
  deriving Repr, DecidableEq

/-- The routing logic of `app.all('/mcp')` (`src/unnamed/part_001` lines
354-416): a truthy `mcp-session-id` header registered as a streamable
transport is reused; registered as an SSE transport it is rejected with the
protocol-mismatch 400; a falsy or absent header is accepted (fresh session)
only for a `POST` whose body `isInitializeRequest`, and every other
combination — including a truthy header with no registered transport — gets
the bad-request 400. -/
def handleMcp (ts : List (String × TransportKind)) (sessionHeader : Option String)
    (isPost : Bool) (isInitReq : Bool) : McpOutcome :=
  match sessionHeader with
  | some s =>
    if s != "" then
      match lookupTransport ts s with
      | some .streamable => .reuse s
      | some .sse => .mismatch
      | none => .badRequest
    else if isPost && isInitReq then .newSession else .badRequest
  | none => if isPost && isInitReq then .newSession else .badRequest

/-- HTTP status the `/mcp` route decides itself (`none` when the request is
handed to a transport, which writes its own response). -/
def mcpStatus : McpOutcome → Option Nat
  | .reuse _ => none
  | .newSession => none
  | .mismatch => some 400
  | .badRequest => some 400

/-- Routing outcome of `app.post('/messages')`. -/
inductive MessagesOutcome where
  | handledPost (sid : String)
  | mismatch
  | noTransport
  deriving Repr, DecidableEq

/-- The routing logic of `app.post('/messages')` (`src/unnamed/part_001`
lines 449-467): the `sessionId` query parameter is looked up; an SSE
transport handles the post, a streamable transport is rejected with the
protocol-mismatch 400, and a missing registration (including an absent query
parameter) is rejected with the `No transport found` 400. -/
def handleMessages (ts : List (String × TransportKind))
    (sessionQuery : Option String) : MessagesOutcome :=
  match sessionQuery with
  | some s =>
    match lookupTransport ts s with
    | some .sse => .handledPost s
    | some .streamable => .mismatch
    | none => .noTransport
  | none => .noTransport

/-- HTTP status the `/messages` route writes for its two rejections. -/
def messagesStatus : MessagesOutcome → Option Nat
  | .handledPost _ => none
  | .mismatch => some 400
  | .noTransport => some 400

/-- The uniform tool-result envelope
`{ content: [{ type: 'text', text }], isError? }`: `message` is the text
payload (for an error result, the error message serialized as
`JSON.stringify({ error: message })`), and `isError` the error flag. -/
structure ToolResult where
  message : String
  isError : Bool
  deriving Repr, DecidableEq

/-- The tool names recognised by the `CallToolRequestSchema` handler's
`if`-chain (`src/unnamed/part_001` lines 141-313). -/
def knownTools : List String :=
  ["list_meetings", "search_meetings", "get_meeting_transcript", "list_teams",
   "list_team_members", "create_webhook", "delete_webhook"]

/-- How the body of a recognised tool's branch ends: a Zod `parse` throw (the
schema-validation failure), a throw from the awaited client call, or a
successful result text. -/
inductive ExecOutcome where
  | parseFailure (message : String)
  | upstreamFailure (message : String)
  | ok (text : String)
  deriving Repr, DecidableEq

/-- The `try` block of the `CallToolRequestSchema` handler
(`src/unnamed/part_001` lines 140-315): a recognised name runs its branch
(which may throw a validation or upstream error), an unrecognised name
reaches `throw new Error('Unknown tool: ...')`. -/
def tryBlockResult (name : String) (exec : ExecOutcome) : Except String String :=
  if name ∈ knownTools then
    match exec with
    | .parseFailure m => .error m
    | .upstreamFailure m => .error m
    | .ok t => .ok t
  else .error ("Unknown tool: " ++ name)

/-- The whole `CallToolRequestSchema` handler (`src/unnamed/part_001` lines
137-328): the `catch` turns any thrown error's message into a returned
`isError: true` envelope, so the handler is a total function — nothing
escapes to the transport and the session keeps serving further requests. -/
def callToolHandler (name : String) (exec : ExecOutcome) : ToolResult :=
  match tryBlockResult name exec with
  | .ok t => { message := t, isError := false }
  | .error m => { message := m, isError := true }

/-- The message of a re-thrown critical transcript error
(`src/src/fathom-client.ts` lines 270 and 274). -/
def criticalErrorMessage : CriticalError → String
  | .authError rid st =>
      "Authentication error accessing transcript " ++ rid ++ ": " ++ toString st
  | .rateLimitError rid =>
      "Rate limit exceeded while fetching transcript " ++ rid

/-- The explanatory text the `get_meeting_transcript` branch returns for an
empty transcript (`src/unnamed/part_001` line 225). -/
def noTranscriptMessage (recordingId : String) : String :=
  "No transcript available for recording " ++ recordingId ++
  ". The meeting may still be processing, or transcription may not be available."

/-- The `get_meeting_transcript` branch of the tool handler
(`src/unnamed/part_001` lines 213-238), as a function of the already-parsed
arguments and the result of `await fathomClient.getMeetingTranscript(...)`:
a thrown critical error propagates to the outer `catch` (error envelope); an
empty transcript returns the explanatory message with no error flag; with
`summarize` a non-empty transcript is wrapped in the instruction prefix. -/
def getMeetingTranscriptTool (recordingId : String) (summarize : Bool)
    (fetched : Except CriticalError String) : ToolResult :=
  match fetched with
  | .error e => { message := criticalErrorMessage e, isError := true }
  | .ok transcript =>
    if transcript = "" then
      { message := noTranscriptMessage recordingId, isError := false }
    else if summarize then
      { message := "Please summarize this meeting transcript:\n\n" ++ transcript,
        isError := false }
    else { message := transcript, isError := false }

/-- A meeting with every optional field absent, used as a base for concrete
test inputs. -/
def blankMeeting : FathomMeeting :=
  { title := none, meeting_title := none, url := "", share_url := "",
    created_at := "", scheduled_start_time := none, calendar_invitees := [],
    recorded_by := "", transcript := none, default_summary := none,
    action_items := none, recording_id := none }

/-- Simple meeting used as a concrete input: it carries a recording id and a
title. -/
def mAuth : FathomMeeting :=
  { blankMeeting with recording_id := some "r1", title := some "Weekly Sync" }

/-- A remote service that answers every transcript fetch with HTTP 401. -/
def envAuth : String → FetchOutcome := fun _ => FetchOutcome.httpFailure (some 401) true

/-- A remote service that answers every transcript fetch with HTTP 500. -/
def envFail : String → FetchOutcome := fun _ => FetchOutcome.httpFailure (some 500) true

/-- A remote service answering `"r1"` with HTTP 500 and everything else with
an unexpected body. -/
def envFailAlt : String → FetchOutcome := fun rid =>
  if rid = "r1" then FetchOutcome.httpFailure (some 500) true
  else FetchOutcome.success TranscriptBody.unexpected

/-- A remote service whose responses all have an unexpected body shape. -/
def envUnexpected : String → FetchOutcome := fun _ => FetchOutcome.success TranscriptBody.unexpected

/-- A 30-day listing with one relevant meeting in eleventh position: ten
blank meetings followed by a meeting titled `Pricing Review`. -/
def pricingMeeting : FathomMeeting := { blankMeeting with title := some "Pricing Review" }

/-- Eleven listed meetings, the last of which is `pricingMeeting`. -/
def elevenItems : List FathomMeeting := List.replicate 10 blankMeeting ++ [pricingMeeting]

/-- A sample filter object for `formatParams`. -/
def sampleParams : FathomListMeetingsParams :=
  { calendar_invitees := some ["a@b.c"], calendar_invitees_domains := some [],
    created_after := some "2024-01-01", created_before := none,
    cursor := some "abc", include_crm_matches := some true,
    include_transcript := some true, meeting_type := some "all",
    recorded_by := none, teams := some ["Sales"] }

/-- A normalized error is of one of the three distinguished kinds. -/
def distinguishedKind : NormalizedError → Bool
  | .rateLimit => true
  | .invalidCredential => true
  | .upstreamMessage _ => true
  | _ => false

theorem searchMeetings_true_eq (s : String) (items : List FathomMeeting)
    (env : String → FetchOutcome) :
    searchMeetings s true items env =
      match updateAll env (items.take 10) with
      | .error e => .error e
      | .ok updated => .ok (updated.filter (fullMatch (jsToLower s))) := rfl

theorem searchMeetings_false_eq (s : String) (items : List FathomMeeting)
    (env : String → FetchOutcome) :
    searchMeetings s false items env =
      Except.ok (items.filter (metadataMatch (jsToLower s))) := rfl

theorem updateAll_nil (env : String → FetchOutcome) : updateAll env [] = .ok [] := rfl

theorem updateAll_cons (env : String → FetchOutcome) (m : FathomMeeting)
    (l : List FathomMeeting) :
    updateAll env (m :: l) =
      match updateTranscript env m with
      | .error e => .error e
      | .ok m2 =>
        match updateAll env l with
        | .error e => .error e
        | .ok l2 => .ok (m2 :: l2) := rfl

theorem getMeetingTranscript_ok_of_noncritical (rid : String) (o : FetchOutcome)
    (h : isCriticalOutcome o = false) : ∃ t, getMeetingTranscript rid o = Except.ok t := by
  cases o with
  | success b => cases b <;> exact ⟨_, rfl⟩
  | httpFailure status isAxios =>
    cases isAxios with
    | false => exact ⟨"", by simp [getMeetingTranscript]⟩
    | true =>
      cases status with
      | none => exact ⟨"", by simp [getMeetingTranscript]⟩
      | some st =>
        simp [isCriticalOutcome] at h
        obtain ⟨⟨h1, h2⟩, h3⟩ := h
        by_cases h4 : st = 404
        · exact ⟨"", by simp [getMeetingTranscript, h4]⟩
        · exact ⟨"", by simp [getMeetingTranscript, h1, h2, h3, h4]⟩

theorem getMeetingTranscript_error_of_critical (rid : String) (o : FetchOutcome)
    (h : isCriticalOutcome o = true) : ∃ e, getMeetingTranscript rid o = Except.error e := by
  cases o with
  | success b => simp [isCriticalOutcome] at h
  | httpFailure status isAxios =>
    cases isAxios with
    | false => simp [isCriticalOutcome] at h
    | true =>
      cases status with
      | none => simp [isCriticalOutcome] at h
      | some st =>
        simp [isCriticalOutcome] at h
        by_cases h1 : st = 401
        · subst h1; exact ⟨_, rfl⟩
        · by_cases h2 : st = 403
          · subst h2; exact ⟨_, rfl⟩
          · have h3 : st = 429 := by tauto
            subst h3; exact ⟨_, rfl⟩

theorem getMeetingTranscript_error_shape (rid : String) (o : FetchOutcome)
    (e : CriticalError) (h : getMeetingTranscript rid o = Except.error e) :
    ∃ st, o = FetchOutcome.httpFailure (some st) true ∧
      (((st = 401 ∨ st = 403) ∧ e = CriticalError.authError rid st) ∨
       (st = 429 ∧ e = CriticalError.rateLimitError rid)) := by
  cases o with
  | success b => cases b <;> simp [getMeetingTranscript] at h
  | httpFailure status isAxios =>
    cases isAxios with
    | false => simp [getMeetingTranscript] at h
    | true =>
      cases status with
      | none => simp [getMeetingTranscript] at h
      | some st =>
        refine ⟨st, rfl, ?_⟩
        by_cases h404 : st = 404
        · simp [getMeetingTranscript, h404] at h
        · by_cases hauth : st = 401 ∨ st = 403
          · left
            refine ⟨hauth, ?_⟩
            simp [getMeetingTranscript, h404, hauth] at h
            exact h.symm
          · by_cases hrate : st = 429
            · right
              refine ⟨hrate, ?_⟩
              simp [getMeetingTranscript, h404, hauth, hrate] at h
              exact h.symm
            · simp [getMeetingTranscript, h404, hauth, hrate] at h

theorem updateTranscript_ok_of_noncritical (env : String → FetchOutcome)
    (m : FathomMeeting) (h : fetchCritical env m = false) :
    ∃ m2, updateTranscript env m = Except.ok m2 := by
  cases hrec : m.recording_id with
  | none => exact ⟨m, by simp [updateTranscript, hrec]⟩
  | some rid =>
    by_cases hr : rid = ""
    · subst hr
      exact ⟨m, by simp [updateTranscript, hrec]⟩
    · have hc : isCriticalOutcome (env rid) = false := by
        simp [fetchCritical, hrec, hr] at h
        exact h
      obtain ⟨t, ht⟩ := getMeetingTranscript_ok_of_noncritical rid (env rid) hc
      by_cases h0 : t = ""
      · subst h0
        exact ⟨m, by simp [updateTranscript, hrec, hr, ht]⟩
      · exact ⟨{ m with transcript := some t }, by simp [updateTranscript, hrec, hr, ht, h0]⟩

theorem updateTranscript_error_of_critical (env : String → FetchOutcome)
    (m : FathomMeeting) (h : fetchCritical env m = true) :
    ∃ e, updateTranscript env m = Except.error e := by
  cases hrec : m.recording_id with
  | none => simp [fetchCritical, hrec] at h
  | some rid =>
    simp [fetchCritical, hrec] at h
    obtain ⟨hr, hc⟩ := h
    obtain ⟨e, he⟩ := getMeetingTranscript_error_of_critical rid (env rid) hc
    exact ⟨e, by simp [updateTranscript, hrec, hr, he]⟩

theorem updateTranscript_error_shape (env : String → FetchOutcome)
    (m : FathomMeeting) (e : CriticalError)
    (h : updateTranscript env m = Except.error e) :
    ∃ rid, m.recording_id = some rid ∧ rid ≠ "" ∧
      getMeetingTranscript rid (env rid) = Except.error e := by
  cases hrec : m.recording_id with
  | none => simp [updateTranscript, hrec] at h
  | some rid =>
    by_cases hr : rid = ""
    · subst hr
      simp [updateTranscript, hrec] at h
    · refine ⟨rid, rfl, hr, ?_⟩
      cases hg : getMeetingTranscript rid (env rid) with
      | error e2 =>
        simp [updateTranscript, hrec, hr, hg] at h
        rw [h]
      | ok t => simp [updateTranscript, hrec, hr, hg] at h

theorem updateTranscript_empty_skip (env : String → FetchOutcome)
    (m : FathomMeeting) (rid : String) (hrec : m.recording_id = some rid)
    (hr : rid ≠ "") (hok : getMeetingTranscript rid (env rid) = Except.ok "") :
    updateTranscript env m = Except.ok m := by
  simp [updateTranscript, hrec, hr, hok]

theorem updateTranscript_congr (env env2 : String → FetchOutcome) (m : FathomMeeting)
    (h : ∀ rid, m.recording_id = some rid → rid ≠ "" → env rid = env2 rid) :
    updateTranscript env m = updateTranscript env2 m := by
  cases hrec : m.recording_id with
  | none => simp [updateTranscript, hrec]
  | some rid =>
    by_cases hr : rid = ""
    · subst hr
      simp [updateTranscript, hrec]
    · simp [updateTranscript, hrec, hr, h rid hrec hr]

theorem updateAll_ok_of_forall (env : String → FetchOutcome) (l : List FathomMeeting)
    (h : ∀ m ∈ l, fetchCritical env m = false) :
    ∃ l2, updateAll env l = Except.ok l2 := by
  induction l with
  | nil => exact ⟨[], rfl⟩
  | cons m rest ih =>
    obtain ⟨m2, hm⟩ := updateTranscript_ok_of_noncritical env m (h m (by simp))
    obtain ⟨l2, hl⟩ := ih (fun x hx => h x (by simp [hx]))
    exact ⟨m2 :: l2, by rw [updateAll_cons, hm, hl]⟩

theorem updateAll_error_of_exists (env : String → FetchOutcome) (l : List FathomMeeting)
    (h : ∃ m ∈ l, fetchCritical env m = true) :
    ∃ e, updateAll env l = Except.error e ∧
      ∃ m ∈ l, updateTranscript env m = Except.error e := by
  induction l with
  | nil => exact absurd h (by simp)
  | cons m rest ih =>
    cases hum : updateTranscript env m with
    | error e => exact ⟨e, by rw [updateAll_cons, hum], m, by simp, hum⟩
    | ok m2 =>
      have hrest : ∃ x ∈ rest, fetchCritical env x = true := by
        rcases h with ⟨x, hx, hcrit⟩
        rcases List.mem_cons.mp hx with rfl | hx2
        · obtain ⟨e, he⟩ := updateTranscript_error_of_critical env x hcrit
          rw [hum] at he
          exact absurd he (by simp)
        · exact ⟨x, hx2, hcrit⟩
      obtain ⟨e, he, x, hx, hux⟩ := ih hrest
      refine ⟨e, ?_, x, List.mem_cons_of_mem _ hx, hux⟩
      rw [updateAll_cons, hum, he]

theorem updateAll_congr (env env2 : String → FetchOutcome) (l : List FathomMeeting)
    (h : ∀ m ∈ l, updateTranscript env m = updateTranscript env2 m) :
    updateAll env l = updateAll env2 l := by
  induction l with
  | nil => rfl
  | cons m rest ih =>
    have hm := h m (by simp)
    have hr := ih (fun x hx => h x (by simp [hx]))
    rw [updateAll_cons, updateAll_cons, hm, hr]

/-- Claim C5: on the session-aware endpoints, a request bearing a known
session identifier whose registered transport is of a different protocol kind
than the endpoint expects is rejected with a protocol-mismatch 400 rather
than silently coerced, and a request bearing no identifier is accepted (as a
fresh session) only when it is a valid initialization request — a `POST`
whose body is an initialize request on `/mcp` — and is otherwise rejected
with a bad-request 400 (on `/messages`, where no identifier can start a
session, with the no-transport 400). -/
theorem session_endpoint_routing (ts : List (String × TransportKind)) (s : String)
    (isPost isInitReq : Bool) :
    (s ≠ "" → lookupTransport ts s = some TransportKind.sse →
      handleMcp ts (some s) isPost isInitReq = McpOutcome.mismatch ∧
      mcpStatus (handleMcp ts (some s) isPost isInitReq) = some 400) ∧
    (lookupTransport ts s = some TransportKind.streamable →
      handleMessages ts (some s) = MessagesOutcome.mismatch ∧
      messagesStatus (handleMessages ts (some s)) = some 400) ∧
    (handleMcp ts none isPost isInitReq =
      (if isPost && isInitReq then McpOutcome.newSession else McpOutcome.badRequest)) ∧
    ((isPost && isInitReq) = false →
      mcpStatus (handleMcp ts none isPost isInitReq) = some 400) ∧
    (handleMessages ts none = MessagesOutcome.noTransport ∧
      messagesStatus (handleMessages ts none) = some 400) := by
  refine ⟨?_, ?_, ?_, ?_, ?_, ?_⟩
  · intro hs hl
    simp [handleMcp, hs, hl, mcpStatus]
  · intro hl
    simp [handleMessages, hl, messagesStatus]
  · rfl
  · intro hni
    simp [handleMcp, mcpStatus, hni]
  · rfl
  · rfl

/-- Witness for C5 at a concrete transport table: a known SSE session id on
`/mcp` is a protocol mismatch, a known streamable id on `/messages` is a
protocol mismatch, and an id-less non-initialize request on `/mcp` is a bad
request with status 400. -/
theorem session_endpoint_routing_w :
    handleMcp [("sid1", TransportKind.sse), ("sid2", TransportKind.streamable)]
        (some "sid1") true true = McpOutcome.mismatch ∧
    handleMessages [("sid1", TransportKind.sse), ("sid2", TransportKind.streamable)]
        (some "sid2") = MessagesOutcome.mismatch ∧
    handleMcp [("sid1", TransportKind.sse), ("sid2", TransportKind.streamable)]
        none true false = McpOutcome.badRequest ∧
    mcpStatus (handleMcp [("sid1", TransportKind.sse), ("sid2", TransportKind.streamable)]
        none true false) = some 400 := by
  have h1 := session_endpoint_routing
    [("sid1", TransportKind.sse), ("sid2", TransportKind.streamable)] "sid1" true true
  have h2 := session_endpoint_routing
    [("sid1", TransportKind.sse), ("sid2", TransportKind.streamable)] "sid2" true false
  refine ⟨(h1.1 (by decide) (by decide)).1, (h2.2.1 (by decide)).1, ?_, h2.2.2.2.1 (by decide)⟩
  have h3 := h2.2.2.1
  simpa using h3

/-- Claim C6: every tool-invocation failure class — unknown operation name,
argument-schema validation failure, and handler (upstream) failure — produces
a structured tool-result envelope that carries the error's message and is
flagged `isError`; the handler is a total function returning that envelope
(the `catch` converts every throw into a returned result, so nothing reaches
the transport and the session keeps accepting invocations). -/
theorem callTool_error_envelope (name : String) (exec : ExecOutcome) :
    (name ∉ knownTools →
      callToolHandler name exec =
        { message := "Unknown tool: " ++ name, isError := true }) ∧
    (∀ m, name ∈ knownTools → exec = ExecOutcome.parseFailure m →
      callToolHandler name exec = { message := m, isError := true }) ∧
    (∀ m, name ∈ knownTools → exec = ExecOutcome.upstreamFailure m →
      callToolHandler name exec = { message := m, isError := true }) ∧
    (∀ t, name ∈ knownTools → exec = ExecOutcome.ok t →
      callToolHandler name exec = { message := t, isError := false }) := by
  refine ⟨?_, ?_, ?_, ?_⟩ <;> intros <;> subst_vars <;>
    simp [callToolHandler, tryBlockResult, *]

/-- Witness for C6: each failure class at a concrete invocation. -/
theorem callTool_error_envelope_w :
    callToolHandler "bogus_tool" (ExecOutcome.ok "x") =
      { message := "Unknown tool: " ++ "bogus_tool", isError := true } ∧
    callToolHandler "list_meetings" (ExecOutcome.parseFailure "Expected boolean") =
      { message := "Expected boolean", isError := true } ∧
    callToolHandler "search_meetings" (ExecOutcome.upstreamFailure "Rate limit exceeded. Please try again later.") =
      { message := "Rate limit exceeded. Please try again later.", isError := true } ∧
    callToolHandler "list_teams" (ExecOutcome.ok "ok-payload") =
      { message := "ok-payload", isError := false } := by
  refine ⟨(callTool_error_envelope "bogus_tool" (ExecOutcome.ok "x")).1 (by decide),
    (callTool_error_envelope "list_meetings" (ExecOutcome.parseFailure "Expected boolean")).2.1
      "Expected boolean" (by decide) rfl,
    (callTool_error_envelope "search_meetings"
        (ExecOutcome.upstreamFailure "Rate limit exceeded. Please try again later.")).2.2.1
      "Rate limit exceeded. Please try again later." (by decide) rfl,
    (callTool_error_envelope "list_teams" (ExecOutcome.ok "ok-payload")).2.2.2
      "ok-payload" (by decide) rfl⟩

/-- Claim C7: the client's error normalizer maps a remote HTTP 429 to the
rate-limit kind and a remote HTTP 401 to the invalid-credential kind
(whatever the body holds); any other remote error whose body carries a
message field becomes the upstream-message kind carrying that text; and
everything else is left unclassified — not one of the three distinguished
kinds (the caught error is passed through when it is an `Error`, or replaced
by the generic unknown error otherwise). -/
theorem handleError_classification (st : Option Nat) (bm : Option String) (m : String) :
    handleError (CaughtFailure.axios (some 429) bm) = NormalizedError.rateLimit ∧
    handleError (CaughtFailure.axios (some 401) bm) = NormalizedError.invalidCredential ∧
    (st ≠ some 429 → st ≠ some 401 →
      handleError (CaughtFailure.axios st (some m)) = NormalizedError.upstreamMessage m) ∧
    (st ≠ some 429 → st ≠ some 401 →
      distinguishedKind (handleError (CaughtFailure.axios st none)) = false) ∧
    distinguishedKind (handleError (CaughtFailure.plainError m)) = false ∧
    distinguishedKind (handleError CaughtFailure.nonError) = false := by
  refine ⟨rfl, rfl, ?_, ?_, rfl, rfl⟩
  · intro h1 h2
    simp [handleError, h1, h2]
  · intro h1 h2
    simp [handleError, h1, h2, distinguishedKind]

/-- Witness for C7 at status 500: a body message is carried through, and a
message-less axios failure is unclassified. -/
theorem handleError_classification_w :
    handleError (CaughtFailure.axios (some 500) (some "boom")) =
      NormalizedError.upstreamMessage "boom" ∧
    distinguishedKind (handleError (CaughtFailure.axios (some 500) none)) = false := by
  have h := handleError_classification (some 500) none "boom"
  exact ⟨h.2.2.1 (by decide) (by decide), h.2.2.2.1 (by decide) (by decide)⟩

/-- Claim C8: a transcript response whose body is an ordered array of
speaker/timestamp/text segments is flattened to one `[timestamp] speaker:
text` line per segment, joined in source order; and a remote not-found (HTTP
404, recording not yet processed) resolves to the empty string instead of an
error. -/
theorem getMeetingTranscript_rendering (rid : String) (segs : List Segment) :
    getMeetingTranscript rid (FetchOutcome.success (TranscriptBody.segArray segs)) =
      Except.ok (String.intercalate "\n" (segs.map renderSegment)) ∧
    (∀ ts sp tx, ts ≠ "" → sp ≠ "" → tx ≠ "" →
      renderSegment { speaker := some sp, timestamp := some ts, text := some tx } =
        "[" ++ ts ++ "] " ++ sp ++ ": " ++ tx) ∧
    getMeetingTranscript rid (FetchOutcome.httpFailure (some 404) true) =
      Except.ok "" := by
  refine ⟨rfl, ?_, rfl⟩
  intro ts sp tx hts hsp htx
  simp [renderSegment, jsOrDefault, hts, hsp, htx]

/-- Witness for C8: one fully-populated segment renders to the documented
line shape. -/
theorem getMeetingTranscript_rendering_w :
    renderSegment { speaker := some "Alice", timestamp := some "0:01", text := some "hello" } =
      "[" ++ "0:01" ++ "] " ++ "Alice" ++ ": " ++ "hello" :=
  (getMeetingTranscript_rendering "rec1" []).2.1 "0:01" "Alice" "hello"
    (by decide) (by decide) (by decide)

/-- Claim C10: the `get_meeting_transcript` tool returns the explanatory
no-transcript message as a non-error result whenever the fetched transcript
is empty (in particular after a remote 404, the not-yet-processed case), and
with `summarize=true` a non-empty transcript is returned wrapped in the
summarization instruction prefix (still a non-error result). -/
theorem getMeetingTranscriptTool_empty_and_summarize (rid : String) (summarize : Bool) :
    getMeetingTranscriptTool rid summarize (Except.ok "") =
      { message := noTranscriptMessage rid, isError := false } ∧
    getMeetingTranscriptTool rid summarize
        (getMeetingTranscript rid (FetchOutcome.httpFailure (some 404) true)) =
      { message := noTranscriptMessage rid, isError := false } ∧
    (∀ t, t ≠ "" → getMeetingTranscriptTool rid true (Except.ok t) =
      { message := "Please summarize this meeting transcript:\n\n" ++ t,
        isError := false }) ∧
    (∀ t, t ≠ "" → getMeetingTranscriptTool rid false (Except.ok t) =
      { message := t, isError := false }) := by
  refine ⟨rfl, rfl, ?_, ?_⟩ <;> intro t ht <;> simp [getMeetingTranscriptTool, ht]

/-- Witness for C10: a concrete non-empty transcript is wrapped by the
summarization prefix. -/
theorem getMeetingTranscriptTool_empty_and_summarize_w :
    getMeetingTranscriptTool "rec1" true (Except.ok "hello there") =
      { message := "Please summarize this meeting transcript:\n\n" ++ "hello there",
        isError := false } ∧
    getMeetingTranscriptTool "rec1" false (Except.ok "hello there") =
      { message := "hello there", isError := false } :=
  ⟨(getMeetingTranscriptTool_empty_and_summarize "rec1" true).2.2.1 "hello there" (by decide),
   (getMeetingTranscriptTool_empty_and_summarize "rec1" false).2.2.2 "hello there" (by decide)⟩

/-- Claim C1: in a transcript-search batch, if any single fetch hits an
authorization (401/403) or rate-limit (429) condition, the whole
`searchMeetings` call fails with exactly that condition (an auth or
rate-limit error naming a failing recording id of the batch) and no result
list is produced; if no fetch hits such a condition the batch completes with
a result, and a fetch that failed for any other reason resolves to the empty
string, leaving that meeting's transcript unchanged (treated as empty). -/
theorem searchMeetings_critical_abort (s : String) (items : List FathomMeeting)
    (env : String → FetchOutcome) :
    ((∃ m ∈ items.take 10, fetchCritical env m = true) →
      ∃ e, searchMeetings s true items env = Except.error e ∧
        ∃ m ∈ items.take 10, ∃ rid, m.recording_id = some rid ∧
          ((∃ st, (st = 401 ∨ st = 403) ∧
              env rid = FetchOutcome.httpFailure (some st) true ∧
              e = CriticalError.authError rid st) ∨
           (env rid = FetchOutcome.httpFailure (some 429) true ∧
              e = CriticalError.rateLimitError rid))) ∧
    ((∀ m ∈ items.take 10, fetchCritical env m = false) →
      ∃ l, searchMeetings s true items env = Except.ok l) ∧
    (∀ m rid, m.recording_id = some rid → rid ≠ "" →
      getMeetingTranscript rid (env rid) = Except.ok "" →
      updateTranscript env m = Except.ok m) := by
  refine ⟨?_, ?_, ?_⟩
  · intro h
    obtain ⟨e, he, m, hm, hum⟩ := updateAll_error_of_exists env (items.take 10) h
    refine ⟨e, by rw [searchMeetings_true_eq, he], m, hm, ?_⟩
    obtain ⟨rid, hrec, hr, hg⟩ := updateTranscript_error_shape env m e hum
    obtain ⟨st, henv, hshape⟩ := getMeetingTranscript_error_shape rid (env rid) e hg
    refine ⟨rid, hrec, ?_⟩
    rcases hshape with ⟨hst, hee⟩ | ⟨hst, hee⟩
    · exact Or.inl ⟨st, hst, henv, hee⟩
    · subst hst
      exact Or.inr ⟨henv, hee⟩
  · intro h
    obtain ⟨l2, hl⟩ := updateAll_ok_of_forall env (items.take 10) h
    exact ⟨l2.filter (fullMatch (jsToLower s)), by rw [searchMeetings_true_eq, hl]⟩
  · intro m rid hrec hr hok
    exact updateTranscript_empty_skip env m rid hrec hr hok

/-- Witness for C1: with the remote answering 401, the one-meeting batch
aborts with an error; with the remote answering 500 (non-critical) it
completes, and the failed fetch leaves the meeting unchanged. -/
theorem searchMeetings_critical_abort_w :
    (∃ e, searchMeetings "sync" true [mAuth] envAuth = Except.error e) ∧
    (∃ l, searchMeetings "sync" true [mAuth] envFail = Except.ok l) ∧
    updateTranscript envFail mAuth = Except.ok mAuth := by
  have h1 := searchMeetings_critical_abort "sync" [mAuth] envAuth
  have h2 := searchMeetings_critical_abort "sync" [mAuth] envFail
  obtain ⟨e, he, -⟩ := h1.1 ⟨mAuth, by decide, by decide⟩
  exact ⟨⟨e, he⟩, h2.2.1 (by decide),
    h2.2.2 mAuth "r1" (by decide) (by decide) (by decide)⟩

/-- Claim C2 counterexample: with transcript search enabled, the filter is
applied only to the first ten listed meetings, so a listed meeting whose
title contains the search term is absent from the result when it sits in
eleventh position — the claim's "appears in the result iff a field matches"
fails for it (here no meeting carries a recording id, so the transcript
phase succeeds trivially and the result is the empty list). -/
theorem searchMeetings_match_membership_cex :
    searchMeetings "pricing" true elevenItems envUnexpected = Except.ok [] ∧
    pricingMeeting ∈ elevenItems ∧
    fullMatch (jsToLower "pricing") pricingMeeting = true := by decide

/-- Claim C2 (amended): a meeting appears in the `searchMeetings` result iff
it belongs to the candidate set — the whole listing when transcript search is
off, the first ten listed meetings (as updated by the transcript-fetch phase)
when it is on — and the lowercased search term is a substring of one of the
lowercased fields: resolved title, alternate title, summary, an action item,
or (transcript mode only) the meeting's transcript text. -/
theorem searchMeetings_match_membership (s : String) (items : List FathomMeeting)
    (env : String → FetchOutcome) :
    searchMeetings s false items env =
      Except.ok (items.filter (metadataMatch (jsToLower s))) ∧
    (∀ m, m ∈ items.filter (metadataMatch (jsToLower s)) ↔
      m ∈ items ∧ metadataMatch (jsToLower s) m = true) ∧
    (∀ updated, updateAll env (items.take 10) = Except.ok updated →
      searchMeetings s true items env =
        Except.ok (updated.filter (fullMatch (jsToLower s))) ∧
      (∀ m, m ∈ updated.filter (fullMatch (jsToLower s)) ↔
        m ∈ updated ∧ fullMatch (jsToLower s) m = true)) := by
  refine ⟨rfl, fun m => List.mem_filter, ?_⟩
  intro updated h
  exact ⟨by rw [searchMeetings_true_eq, h], fun m => List.mem_filter⟩

/-- Witness for C2 (amended) on a one-meeting listing: the transcript-mode
result is the filtered candidate list and membership coincides with the
field test. -/
theorem searchMeetings_match_membership_w :
    searchMeetings "pricing" true [pricingMeeting] envUnexpected =
      Except.ok ([pricingMeeting].filter (fullMatch (jsToLower "pricing"))) ∧
    (pricingMeeting ∈ [pricingMeeting].filter (fullMatch (jsToLower "pricing")) ↔
      pricingMeeting ∈ [pricingMeeting] ∧
      fullMatch (jsToLower "pricing") pricingMeeting = true) := by
  have h := (searchMeetings_match_membership "pricing" [pricingMeeting]
    envUnexpected).2.2 [pricingMeeting] (by decide)
  exact ⟨h.1, h.2 pricingMeeting⟩

/-- Claim C3: with transcript search enabled, at most ten transcript fetches
are issued however long the listing is; every fetched recording id belongs to
a listed meeting with a truthy recording id; the fetched meetings are an
initial run (most recent first, in listing order) of the listed meetings
carrying a recording id; and the search result depends on the remote service
only through those fetched ids. -/
theorem searchMeetings_transcript_cap (s : String) (items : List FathomMeeting) :
    (transcriptFetches true items).length ≤ 10 ∧
    (items.take 10).filter hasRecIdB <+: items.filter hasRecIdB ∧
    (∀ rid ∈ transcriptFetches true items,
      ∃ m, m ∈ items ∧ m.recording_id = some rid ∧ rid ≠ "") ∧
    (∀ env env2, (∀ rid ∈ transcriptFetches true items, env rid = env2 rid) →
      searchMeetings s true items env = searchMeetings s true items env2) := by
  refine ⟨?_, ?_, ?_, ?_⟩
  · show ((((items.take 10).filter hasRecIdB).filterMap
      (fun m => m.recording_id))).length ≤ 10
    calc (((items.take 10).filter hasRecIdB).filterMap
          (fun m => m.recording_id)).length
        ≤ ((items.take 10).filter hasRecIdB).length :=
          List.length_filterMap_le _ _
      _ ≤ (items.take 10).length := List.length_filter_le _ _
      _ ≤ 10 := List.length_take_le _ _
  · exact ⟨(items.drop 10).filter hasRecIdB,
      by rw [← List.filter_append, List.take_append_drop]⟩
  · intro rid hrid
    simp only [transcriptFetches] at hrid
    obtain ⟨m, hm, hrec⟩ := List.mem_filterMap.mp hrid
    have hmem := List.mem_filter.mp hm
    refine ⟨m, List.take_subset _ _ hmem.1, hrec, ?_⟩
    have hb := hmem.2
    rw [hasRecIdB, hrec] at hb
    simpa using hb
  · intro env env2 hagree
    have hcongr : updateAll env (items.take 10) = updateAll env2 (items.take 10) := by
      apply updateAll_congr
      intro m hm
      apply updateTranscript_congr
      intro rid hrec hne
      apply hagree
      simp only [transcriptFetches]
      exact List.mem_filterMap.mpr
        ⟨m, List.mem_filter.mpr ⟨hm, by simp [hasRecIdB, hrec, hne]⟩, hrec⟩
    rw [searchMeetings_true_eq, searchMeetings_true_eq, hcongr]

/-- Witness for C3 on a one-meeting listing: the fetched id `"r1"` comes from
a listed meeting with a recording id, and two services that agree on `"r1"`
produce the same search result. -/
theorem searchMeetings_transcript_cap_w :
    (∃ m, m ∈ [mAuth] ∧ m.recording_id = some "r1" ∧ "r1" ≠ "") ∧
    searchMeetings "sync" true [mAuth] envFail =
      searchMeetings "sync" true [mAuth] envFailAlt := by
  have h := searchMeetings_transcript_cap "sync" [mAuth]
  exact ⟨h.2.2.1 "r1" (by decide), h.2.2.2 envFail envFailAlt (by decide)⟩

/-- Claim C9: with transcript search disabled, no transcript fetch is ever
issued — the fetched-id list is empty and the result does not depend on the
remote transcript service at all — and the result is the full listing (no
ten-meeting cap) filtered by the case-insensitive substring test on title,
summary and action items only. -/
theorem searchMeetings_metadata_only (s : String) (items : List FathomMeeting)
    (env env2 : String → FetchOutcome) :
    transcriptFetches false items = [] ∧
    searchMeetings s false items env = searchMeetings s false items env2 ∧
    searchMeetings s false items env =
      Except.ok (items.filter (metadataMatch (jsToLower s))) ∧
    (∀ m, m ∈ items.filter (metadataMatch (jsToLower s)) ↔
      m ∈ items ∧ metadataMatch (jsToLower s) m = true) :=
  ⟨rfl, rfl, rfl, fun _ => List.mem_filter⟩

theorem arrayEntry_key (kv : String × JsVal) (k : String) (f : Option (List String))
    (h : kv ∈ arrayEntry k f) : kv.1 = k := by
  cases f with
  | none => simp [arrayEntry] at h
  | some l =>
    by_cases hl : l.length ≠ 0
    · simp [arrayEntry, hl] at h
      rw [h]
    · simp [arrayEntry, hl] at h

theorem mem_arrayEntry (k : String) (l : List String) (hl : l ≠ []) :
    (k, JsVal.strList l) ∈ arrayEntry k (some l) := by
  have h0 : l.length ≠ 0 := fun h => hl (List.length_eq_zero.mp h)
  simp [arrayEntry, h0]

theorem scalarKeyKept_ne_it (k : String) (h : scalarKeyKept k = true) :
    k ≠ "include_transcript" := by
  simp [scalarKeyKept] at h
  tauto

/-- Claim C4: `listMeetings` sends exactly `formatParams(params)` upstream;
there the `include_transcript` flag never appears under any key, each present
and non-empty list-valued filter (attendee emails, attendee domains, owner
emails, team names) appears as a repeated-key array parameter under its
`[]`-suffixed key, and every other defined scalar filter is passed as a plain
key/value pair under its own name. -/
theorem formatParams_upstream_params (p : FathomListMeetingsParams) :
    (∀ kv ∈ formatParams (some p), kv.1 ≠ "include_transcript") ∧
    (∀ l, p.calendar_invitees = some l → l ≠ [] →
      ("calendar_invitees[]", JsVal.strList l) ∈ formatParams (some p)) ∧
    (∀ l, p.calendar_invitees_domains = some l → l ≠ [] →
      ("calendar_invitees_domains[]", JsVal.strList l) ∈ formatParams (some p)) ∧
    (∀ l, p.recorded_by = some l → l ≠ [] →
      ("recorded_by[]", JsVal.strList l) ∈ formatParams (some p)) ∧
    (∀ l, p.teams = some l → l ≠ [] →
      ("teams[]", JsVal.strList l) ∈ formatParams (some p)) ∧
    (∀ v, p.created_after = some v →
      ("created_after", JsVal.str v) ∈ formatParams (some p)) ∧
    (∀ v, p.created_before = some v →
      ("created_before", JsVal.str v) ∈ formatParams (some p)) ∧
    (∀ v, p.cursor = some v → ("cursor", JsVal.str v) ∈ formatParams (some p)) ∧
    (∀ b, p.include_crm_matches = some b →
      ("include_crm_matches", JsVal.boolean b) ∈ formatParams (some p)) ∧
    (∀ v, p.meeting_type = some v →
      ("meeting_type", JsVal.str v) ∈ formatParams (some p)) := by
  refine ⟨?_, ?_, ?_, ?_, ?_, ?_, ?_, ?_, ?_, ?_⟩
  · intro kv hkv
    simp only [formatParams] at hkv
    rcases List.mem_append.mp hkv with h | h
    · simp only [arrayParamBlock] at h
      rcases List.mem_append.mp h with h | h
      · rcases List.mem_append.mp h with h | h
        · rcases List.mem_append.mp h with h | h
          · rw [arrayEntry_key kv _ _ h]; decide
          · rw [arrayEntry_key kv _ _ h]; decide
        · rw [arrayEntry_key kv _ _ h]; decide
      · rw [arrayEntry_key kv _ _ h]; decide
    · exact scalarKeyKept_ne_it kv.1 (List.mem_filter.mp h).2
  · intro l hl hne
    simp only [formatParams, arrayParamBlock]
    exact List.mem_append_left _ (List.mem_append_left _ (List.mem_append_left _
      (List.mem_append_left _ (hl ▸ mem_arrayEntry _ l hne))))
  · intro l hl hne
    simp only [formatParams, arrayParamBlock]
    exact List.mem_append_left _ (List.mem_append_left _ (List.mem_append_left _
      (List.mem_append_right _ (hl ▸ mem_arrayEntry _ l hne))))
  · intro l hl hne
    simp only [formatParams, arrayParamBlock]
    exact List.mem_append_left _ (List.mem_append_left _ (List.mem_append_right _
      (hl ▸ mem_arrayEntry _ l hne)))
  · intro l hl hne
    simp only [formatParams, arrayParamBlock]
    exact List.mem_append_left _ (List.mem_append_right _
      (hl ▸ mem_arrayEntry _ l hne))
  · intro v hv
    simp only [formatParams]
    refine List.mem_append_right _ (List.mem_filter.mpr ⟨?_, ?_⟩)
    · simp [paramEntries, optEntry, hv]
    · show scalarKeyKept "created_after" = true
      decide
  · intro v hv
    simp only [formatParams]
    refine List.mem_append_right _ (List.mem_filter.mpr ⟨?_, ?_⟩)
    · simp [paramEntries, optEntry, hv]
    · show scalarKeyKept "created_before" = true
      decide
  · intro v hv
    simp only [formatParams]
    refine List.mem_append_right _ (List.mem_filter.mpr ⟨?_, ?_⟩)
    · simp [paramEntries, optEntry, hv]
    · show scalarKeyKept "cursor" = true
      decide
  · intro b hb
    simp only [formatParams]
    refine List.mem_append_right _ (List.mem_filter.mpr ⟨?_, ?_⟩)
    · simp [paramEntries, optEntry, hb]
    · show scalarKeyKept "include_crm_matches" = true
      decide
  · intro v hv
    simp only [formatParams]
    refine List.mem_append_right _ (List.mem_filter.mpr ⟨?_, ?_⟩)
    · simp [paramEntries, optEntry, hv]
    · show scalarKeyKept "meeting_type" = true
      decide

/-- Witness for C4 at a concrete filter object: the array filters appear
under their `[]` keys, the defined scalars appear as plain pairs, and no key
is `include_transcript` even though the flag is set. -/
theorem formatParams_upstream_params_w :
    ("calendar_invitees[]", JsVal.strList ["a@b.c"]) ∈ formatParams (some sampleParams) ∧
    ("teams[]", JsVal.strList ["Sales"]) ∈ formatParams (some sampleParams) ∧
    ("created_after", JsVal.str "2024-01-01") ∈ formatParams (some sampleParams) ∧
    ("cursor", JsVal.str "abc") ∈ formatParams (some sampleParams) ∧
    ("include_crm_matches", JsVal.boolean true) ∈ formatParams (some sampleParams) ∧
    ("meeting_type", JsVal.str "all") ∈ formatParams (some sampleParams) ∧
    (∀ kv ∈ formatParams (some sampleParams), kv.1 ≠ "include_transcript") := by
  have h := formatParams_upstream_params sampleParams
  exact ⟨h.2.1 ["a@b.c"] rfl (by decide), h.2.2.2.2.1 ["Sales"] rfl (by decide),
    h.2.2.2.2.2.1 "2024-01-01" rfl, h.2.2.2.2.2.2.2.1 "abc" rfl,
    h.2.2.2.2.2.2.2.2.1 true rfl, h.2.2.2.2.2.2.2.2.2 "all" rfl, h.1⟩
